import Mathlib

/-!
Verification of the tag-compliance / remediation logic of the CloudMart
tagging dashboard (src/app.py).  The dashboard is a straight-line pandas
script; we embed its data model (one dataframe row per cloud resource,
with a schema recording which optional columns are present), its metric
computations, its categorical filters, and its remediation merge, and
prove or refute the specification claims about them.

Conventions of the embedding:
* a pandas null (NaN) cell is `Option.none`;
* `MonthlyCostUSD` is embedded as `Option ℚ` (`pd.to_numeric(..., errors="coerce")`
  leaves a nullable numeric column; sums skip nulls, i.e. treat them as 0);
* pandas `Series.isin` returns `False` on null entries, and `==` comparison
  with a string returns `False` on null entries; both are modelled directly;
* the dataframe's RangeIndex is the position of a row in the `rows` list;
* Streamlit rendering calls (`st.dataframe`, charts, ...) are external I/O;
  only the control flow that decides which sections render, which error
  boxes appear, and where an uncaught exception aborts the script is
  modelled (as a list of events).
-/

namespace CloudTagging

/-- Which optional columns of the CSV are present (`"X" in df.columns`). -/
structure Schema where
  hasResourceID : Bool
  hasCost : Bool
  hasTagged : Bool
  hasService : Bool
  hasRegion : Bool
  hasDepartment : Bool
  hasProject : Bool
  hasEnvironment : Bool
  hasOwner : Bool
  hasCostCenter : Bool
  hasCreatedBy : Bool
deriving DecidableEq, Repr

/-- One dataframe row.  A field of a column absent from the schema is
irrelevant (the code never reads it); null cells are `none`. -/
structure Row where
  resourceID : Option String
  monthlyCostUSD : Option ℚ
  tagged : Option String
  service : Option String
  region : Option String
  department : Option String
  project : Option String
  environment : Option String
  owner : Option String
  costCenter : Option String
  createdBy : Option String
deriving DecidableEq, Repr

/-- The loaded dataframe `df`: its column set and its rows. -/
structure Table where
  schema : Schema
  rows : List Row
deriving DecidableEq, Repr

/-- src/app.py line 208: the candidate tag fields for the completeness score. -/
def candidate_tag_fields : List String :=
  ["Department", "Project", "Environment", "Owner", "CostCenter", "CreatedBy"]

/-- Membership of a candidate tag field column in `df.columns`. -/
def columnPresent (s : Schema) (c : String) : Bool :=
  if c = "Department" then s.hasDepartment
  else if c = "Project" then s.hasProject
  else if c = "Environment" then s.hasEnvironment
  else if c = "Owner" then s.hasOwner
  else if c = "CostCenter" then s.hasCostCenter
  else if c = "CreatedBy" then s.hasCreatedBy
  else false

/-- src/app.py line 216: `tag_fields = [col for col in candidate_tag_fields if col in df.columns]`
(also rebuilt unchanged as `current_tag_fields` at lines 458-471). -/
def current_tag_fields (s : Schema) : List String :=
  candidate_tag_fields.filter (columnPresent s)

/-- Reading a tag-field column of a row by column name. -/
def tagFieldValue (c : String) (r : Row) : Option String :=
  if c = "Department" then r.department
  else if c = "Project" then r.project
  else if c = "Environment" then r.environment
  else if c = "Owner" then r.owner
  else if c = "CostCenter" then r.costCenter
  else if c = "CreatedBy" then r.createdBy
  else none

/-- src/app.py lines 539-541: `df_after[current_tag_fields].notnull().all(axis=1)`
for one row. -/
def completeness_mask (s : Schema) (r : Row) : Bool :=
  (current_tag_fields s).all (fun c => (tagFieldValue c r).isSome)

/-- The guard under which line 542 rewrites `Tagged`: the code only applies
the mask when `current_tag_fields` is non-empty (line 538 `if current_tag_fields:`). -/
def afterGuard (s : Schema) (r : Row) : Bool :=
  !(current_tag_fields s).isEmpty && completeness_mask s r

/-- Effect of src/app.py lines 538-542 on one row of `df_after`:
`df_after.loc[completeness_mask, "Tagged"] = "Yes"`. -/
def dfAfterRow (s : Schema) (r : Row) : Row :=
  if afterGuard s r then { r with tagged := some "Yes" } else r

/-- src/app.py line 536-542: the copy of the remediated table used for the
after-remediation metrics, with `Tagged` promoted on completeness-qualified rows. -/
def df_after (s : Schema) (rows : List Row) : List Row :=
  rows.map (dfAfterRow s)

/-- A null cost is excluded from pandas sums, i.e. contributes 0. -/
def costD (r : Row) : ℚ :=
  r.monthlyCostUSD.getD 0

/-- `df["Tagged"] == "No"` for one row (`False` on null, as in pandas). -/
def isUntagged (r : Row) : Bool :=
  r.tagged == some "No"

/-- src/app.py line 105: `total_cost = df["MonthlyCostUSD"].sum()` (nulls skipped). -/
def total_cost (rows : List Row) : ℚ :=
  (rows.map costD).sum

/-- src/app.py line 106: `untagged_cost = df.loc[df["Tagged"] == "No", "MonthlyCostUSD"].sum()`. -/
def untagged_cost (rows : List Row) : ℚ :=
  ((rows.filter isUntagged).map costD).sum

/-- The complement part of the `cost_by_tag` partition of line 94 (groupby with
`dropna=False`): cost summed over every row whose `Tagged` is not the literal
`"No"`, including null and any other value. -/
def tagged_cost (rows : List Row) : ℚ :=
  ((rows.filter (fun r => !isUntagged r)).map costD).sum

/-- src/app.py line 528: `(df["Tagged"] == "No").sum()`. -/
def untagged_count (rows : List Row) : Nat :=
  (rows.filter isUntagged).length

/-- src/app.py lines 108-111 (and 529-533): the untagged-cost percentage with
its divide-by-zero guard. -/
def pct_untagged_cost (rows : List Row) : ℚ :=
  if 0 < total_cost rows then untagged_cost rows / total_cost rows * 100 else 0

/-- Pandas `Series.isin(sel)` on one cell: null is never a member. -/
def isinKeep (sel : List String) (v : Option String) : Bool :=
  match v with
  | some x => sel.contains x
  | none => false

/-- One step of the filter cascade of src/app.py lines 343-350:
`if "X" in df.columns and selected: df_filtered = df_filtered[df_filtered["X"].isin(selected)]`. -/
def applyCat (hasCol : Bool) (sel : List String) (fld : Row → Option String)
    (rows : List Row) : List Row :=
  if hasCol && !sel.isEmpty then rows.filter (fun r => isinKeep sel (fld r)) else rows

/-- src/app.py lines 340-350: the Service / Region / Department filter cascade
producing `df_filtered`. -/
def df_filtered (t : Table) (selServices selRegions selDepartments : List String) :
    List Row :=
  applyCat t.schema.hasDepartment selDepartments Row.department
    (applyCat t.schema.hasRegion selRegions Row.region
      (applyCat t.schema.hasService selServices Row.service t.rows))

/-- The per-field predicate the cascade actually enforces: membership for
non-null values, exclusion of nulls, and no filtering when the column is
absent or the selection is empty. -/
def passFilter (hasCol : Bool) (sel : List String) (v : Option String) : Bool :=
  if hasCol && !sel.isEmpty then isinKeep sel v else true

/-- src/app.py line 449 (and line 256): the remediation candidate set
`untagged_original = df[df["Tagged"] == "No"]`. -/
def untagged_original (t : Table) : List Row :=
  t.rows.filter isUntagged

/-! ### Helper lemmas -/

theorem isUntagged_iff (r : Row) : isUntagged r = true ↔ r.tagged = some "No" := by
  simp [isUntagged]

theorem filterTwice (p q : Row → Bool) (l : List Row) :
    (l.filter p).filter q = l.filter (fun r => p r && q r) := by
  induction l with
  | nil => rfl
  | cons a l ih =>
    cases hp : p a <;> cases hq : q a <;> simp [List.filter_cons, hp, hq, ih]

theorem applyCat_eq_filter (hasCol : Bool) (sel : List String) (fld : Row → Option String)
    (rows : List Row) :
    applyCat hasCol sel fld rows = rows.filter (fun r => passFilter hasCol sel (fld r)) := by
  unfold applyCat passFilter
  split
  · rfl
  · simp

theorem untagged_cost_cons (r : Row) (l : List Row) :
    untagged_cost (r :: l) =
      (if isUntagged r then costD r else 0) + untagged_cost l := by
  by_cases h : isUntagged r = true <;> simp [untagged_cost, List.filter_cons, h]

theorem untagged_count_cons (r : Row) (l : List Row) :
    untagged_count (r :: l) =
      (if isUntagged r then 1 else 0) + untagged_count l := by
  by_cases h : isUntagged r = true <;>
    simp [untagged_count, List.filter_cons, h, Nat.add_comm]

theorem tagged_cost_cons (r : Row) (l : List Row) :
    tagged_cost (r :: l) =
      (if isUntagged r then 0 else costD r) + tagged_cost l := by
  by_cases h : isUntagged r = true <;> simp [tagged_cost, List.filter_cons, h]

/-! ### C9: the untagged / tagged cost partition -/

/-- C9: for every table, the total cost (nulls as 0) splits exactly into the
cost of the rows with `Tagged == "No"` plus the cost of all remaining rows
(null or any other `Tagged` value): the partition is exhaustive and
non-overlapping. -/
theorem c9_cost_partition (rows : List Row) :
    total_cost rows = untagged_cost rows + tagged_cost rows := by
  induction rows with
  | nil => simp [total_cost, untagged_cost, tagged_cost]
  | cons r l ih =>
    have ht : total_cost (r :: l) = costD r + total_cost l := by simp [total_cost]
    rw [untagged_cost_cons, tagged_cost_cons, ht, ih]
    by_cases h : isUntagged r = true <;> simp [h] <;> ring

/-! ### C3: the remediation candidate set -/

/-- C3 counterexample: a row marked `Tagged = "Yes"` with a null `Owner` is
NOT in the remediation candidate set computed at line 449, contradicting the
claim that rows with any null of Department/Project/Owner are included. -/
def t3cx : Table :=
  { schema :=
      { hasResourceID := true, hasCost := false, hasTagged := true
        hasService := false, hasRegion := false, hasDepartment := true
        hasProject := true, hasEnvironment := false, hasOwner := true
        hasCostCenter := false, hasCreatedBy := false }
    rows :=
      [{ resourceID := some "R1", monthlyCostUSD := none, tagged := some "Yes"
         service := none, region := none, department := some "Sales"
         project := some "P", environment := none, owner := none
         costCenter := none, createdBy := none }] }

/-- C3: the claim fails on the code: the concrete row has `Tagged = "Yes"`
and a null `Owner`, so the claim puts it in the remediation candidate set,
but `untagged_original` (line 449) excludes it. -/
theorem c3_counterexample :
    ∃ r, t3cx.rows = [r] ∧ r.tagged = some "Yes" ∧ r.owner = none ∧
      r ∉ untagged_original t3cx := by
  refine ⟨_, rfl, rfl, rfl, ?_⟩
  decide

/-- C3 (amended): `selectForRemediation` (line 449 `untagged_original`, line 256
`untagged_resources`) returns exactly the rows whose raw `Tagged` value is the
literal `"No"`; rows whose `Tagged` is `"Yes"` or null are excluded even when
Department, Project or Owner is null. -/
theorem c3_amended (t : Table) (r : Row) :
    r ∈ untagged_original t ↔ r ∈ t.rows ∧ r.tagged = some "No" := by
  simp [untagged_original, List.mem_filter, isUntagged]

/-! ### C2: the categorical filters -/

/-- C2 counterexample table: one row with a null Department, Department column
present. -/
def t2cx : Table :=
  { schema :=
      { hasResourceID := true, hasCost := false, hasTagged := true
        hasService := false, hasRegion := false, hasDepartment := true
        hasProject := false, hasEnvironment := false, hasOwner := false
        hasCostCenter := false, hasCreatedBy := false }
    rows :=
      [{ resourceID := some "R1", monthlyCostUSD := none, tagged := some "No"
         service := none, region := none, department := none
         project := none, environment := none, owner := none
         costCenter := none, createdBy := none }] }

/-- C2: the claim fails on the code: filtering on `Department ∈ ["Sales"]`
EXCLUDES the row whose Department is null (`Series.isin` is false on null),
while the claim says a null-valued row is never excluded. -/
theorem c2_counterexample :
    ∃ r, t2cx.rows = [r] ∧ r.department = none ∧
      r ∉ df_filtered t2cx [] [] ["Sales"] := by
  refine ⟨_, rfl, rfl, ?_⟩
  decide

/-- C2 (amended): for each categorical field (Service, Region, Department)
whose column is present and whose allowed set is non-empty, `df_filtered`
(lines 340-350) keeps exactly the rows whose field value is non-null AND a
member of the allowed set: null values are excluded; an empty allowed set or
an absent column applies no filtering for that field. -/
theorem c2_amended (t : Table) (ss rs ds : List String) :
    df_filtered t ss rs ds =
      t.rows.filter (fun r =>
        passFilter t.schema.hasService ss r.service &&
        passFilter t.schema.hasRegion rs r.region &&
        passFilter t.schema.hasDepartment ds r.department) := by
  unfold df_filtered
  rw [applyCat_eq_filter, applyCat_eq_filter, applyCat_eq_filter,
    filterTwice, filterTwice]
  simp [Bool.and_assoc]

/-! ### C8: the untagged-cost percentage -/

theorem untagged_cost_nonneg (rows : List Row) (hnn : ∀ r ∈ rows, 0 ≤ costD r) :
    0 ≤ untagged_cost rows := by
  unfold untagged_cost
  apply List.sum_nonneg
  intro x hx
  rcases List.mem_map.1 hx with ⟨r, hr, rfl⟩
  exact hnn r (List.mem_of_mem_filter hr)

theorem untagged_le_total (rows : List Row) (hnn : ∀ r ∈ rows, 0 ≤ costD r) :
    untagged_cost rows ≤ total_cost rows := by
  induction rows with
  | nil => simp [untagged_cost, total_cost]
  | cons r l ih =>
    have hr : 0 ≤ costD r := hnn r (List.mem_cons_self r l)
    have ihl := ih (fun x hx => hnn x (List.mem_cons_of_mem r hx))
    have ht : total_cost (r :: l) = costD r + total_cost l := by simp [total_cost]
    rw [untagged_cost_cons, ht]
    by_cases h : isUntagged r = true <;> simp [h] <;> linarith

/-- C8: for every table with non-negative costs (nulls as 0), the
untagged-cost percentage of lines 108-111 equals
`untagged_cost / total_cost * 100` and lies in [0, 100] when the total cost
is positive, and is exactly 0 when the total cost is non-positive. -/
theorem c8_pct_bounds (rows : List Row) (hnn : ∀ r ∈ rows, 0 ≤ costD r) :
    (0 < total_cost rows →
      pct_untagged_cost rows = untagged_cost rows / total_cost rows * 100 ∧
      0 ≤ pct_untagged_cost rows ∧ pct_untagged_cost rows ≤ 100) ∧
    (total_cost rows ≤ 0 → pct_untagged_cost rows = 0) := by
  constructor
  · intro hpos
    have hu0 : 0 ≤ untagged_cost rows := untagged_cost_nonneg rows hnn
    have hut : untagged_cost rows ≤ total_cost rows := untagged_le_total rows hnn
    have heq : pct_untagged_cost rows = untagged_cost rows / total_cost rows * 100 := by
      unfold pct_untagged_cost
      exact if_pos hpos
    refine ⟨heq, ?_, ?_⟩
    · rw [heq]
      exact mul_nonneg (div_nonneg hu0 hpos.le) (by norm_num)
    · rw [heq]
      have hdiv : untagged_cost rows / total_cost rows ≤ 1 := (div_le_one hpos).2 hut
      calc untagged_cost rows / total_cost rows * 100 ≤ 1 * 100 :=
            mul_le_mul_of_nonneg_right hdiv (by norm_num)
        _ = 100 := by norm_num
  · intro hle
    unfold pct_untagged_cost
    exact if_neg (not_lt.2 hle)

/-- Concrete table for the C8 witness: the spec's worked example, costs 100
(untagged) and 50 (tagged). -/
def tw8rows : List Row :=
  [{ resourceID := some "R1", monthlyCostUSD := some 100, tagged := some "No"
     service := none, region := none, department := none
     project := none, environment := none, owner := none
     costCenter := none, createdBy := none },
   { resourceID := some "R2", monthlyCostUSD := some 50, tagged := some "Yes"
     service := none, region := none, department := some "Sales"
     project := none, environment := none, owner := none
     costCenter := none, createdBy := none }]

/-- C8 witness: the theorem evaluated on the concrete two-row table. -/
theorem c8_pct_bounds_witness :
    (0 < total_cost tw8rows →
      pct_untagged_cost tw8rows = untagged_cost tw8rows / total_cost tw8rows * 100 ∧
      0 ≤ pct_untagged_cost tw8rows ∧ pct_untagged_cost tw8rows ≤ 100) ∧
    (total_cost tw8rows ≤ 0 → pct_untagged_cost tw8rows = 0) :=
  c8_pct_bounds tw8rows (by decide)

/-! ### The remediation merge (src/app.py lines 484-517)

The editable grid shows `untagged_original[columns_for_editor]`, where
`columns_for_editor = [RowID, ResourceID] (+ MonthlyCostUSD) + editable_cols`
and `RowID` is the original positional index of the row (line 455).  The
submitted batch is merged into a copy of the full table keyed on `RowID`
(lines 494-501); only the tag-field columns are written back.  An edit row
whose `RowID` label is not in the index of `df_remediated` (for example a row
newly added in the dynamic editor, whose RowID is null), or a duplicated
label, makes the `.loc` assignment raise, which the top-level handler turns
into a generic error box. -/

/-- One row of the edited grid as submitted back by the data editor. -/
structure Edit where
  rowID : Option Nat
  resourceID : Option String
  monthlyCostUSD : Option ℚ
  department : Option String
  project : Option String
  environment : Option String
  owner : Option String
  costCenter : Option String
  createdBy : Option String
deriving DecidableEq, Repr

/-- Writing the editable columns of one edit row into a table row
(lines 497-501): only the tag-field columns present in the schema are
copied; `ResourceID`, `MonthlyCostUSD` and `Tagged` are never written. -/
def overwriteRow (s : Schema) (r : Row) (e : Edit) : Row :=
  { r with
    department := if s.hasDepartment then e.department else r.department
    project := if s.hasProject then e.project else r.project
    environment := if s.hasEnvironment then e.environment else r.environment
    owner := if s.hasOwner then e.owner else r.owner
    costCenter := if s.hasCostCenter then e.costCenter else r.costCenter
    createdBy := if s.hasCreatedBy then e.createdBy else r.createdBy }

/-- The edit (if any) whose `RowID` equals the given row label. -/
def findEdit (edits : List Edit) (i : Nat) : Option Edit :=
  edits.find? (fun e => e.rowID == some i)

/-- The label-aligned `.loc` write-back over the rows of `df_remediated`,
starting from row label `i`. -/
def mergeRowsAux (s : Schema) (edits : List Edit) : Nat → List Row → List Row
  | _, [] => []
  | i, r :: rs =>
    (match findEdit edits i with
     | some e => overwriteRow s r e
     | none => r) :: mergeRowsAux s edits (i + 1) rs

/-- A single edit row addresses an existing row label of the table. -/
def validEdit (n : Nat) (e : Edit) : Bool :=
  match e.rowID with
  | some i => i < n
  | none => false

/-- The whole batch merges without raising: every `RowID` is an existing
label and no label is duplicated. -/
def validEdits (n : Nat) (edits : List Edit) : Bool :=
  edits.all (validEdit n) && decide ((edits.map Edit.rowID).Nodup)

/-- The message of the alignment failure raised by the `.loc` assignment. -/
def keyErrorMsg : String := "KeyError"

/-- src/app.py lines 494-501: `df_remediated`, i.e. `df.copy()` with the
edited tag-field columns written back by `RowID`; a bad label raises. -/
def mergeEdits (t : Table) (edits : List Edit) : Except String (List Row) :=
  if validEdits t.rows.length edits then
    .ok (mergeRowsAux t.schema edits 0 t.rows)
  else
    .error keyErrorMsg

/-- The full remediation recomputation: the merge of lines 494-501 followed
by the completeness-based `Tagged` promotion of lines 536-542 (producing the
rows of `df_after`). -/
def applyEditsAll (t : Table) (edits : List Edit) : Except String (List Row) :=
  match mergeEdits t edits with
  | .ok rows2 => .ok (df_after t.schema rows2)
  | .error m => .error m

/-- The columns of the loaded dataframe, in schema order. -/
def tableColumns (s : Schema) : List String :=
  (if s.hasResourceID then ["ResourceID"] else []) ++
  (if s.hasCost then ["MonthlyCostUSD"] else []) ++
  (if s.hasTagged then ["Tagged"] else []) ++
  (if s.hasService then ["Service"] else []) ++
  (if s.hasRegion then ["Region"] else []) ++
  (if s.hasDepartment then ["Department"] else []) ++
  (if s.hasProject then ["Project"] else []) ++
  (if s.hasEnvironment then ["Environment"] else []) ++
  (if s.hasOwner then ["Owner"] else []) ++
  (if s.hasCostCenter then ["CostCenter"] else []) ++
  (if s.hasCreatedBy then ["CreatedBy"] else [])

/-- The columns of `df_remediated`: those of `df`, which gained
`TagCompletenessScore` at line 228 when at least one tag field is present.
`RowID` was only ever added to the separate `untagged_original` copy
(line 455), never to `df` or `df_remediated`. -/
def remediatedColumns (s : Schema) : List String :=
  tableColumns s ++
    (if (current_tag_fields s).isEmpty then [] else ["TagCompletenessScore"])

/-- src/app.py line 508: the columns of the exported CSV,
`[c for c in df_remediated.columns if c != "RowID"]`. -/
def exportColumns (s : Schema) : List String :=
  (remediatedColumns s).filter (fun c => c ≠ "RowID")

/-! ### Preservation lemmas for the merge and the promotion -/

theorem overwriteRow_tagged (s : Schema) (r : Row) (e : Edit) :
    (overwriteRow s r e).tagged = r.tagged := rfl

theorem overwriteRow_cost (s : Schema) (r : Row) (e : Edit) :
    (overwriteRow s r e).monthlyCostUSD = r.monthlyCostUSD := rfl

theorem overwriteRow_rid (s : Schema) (r : Row) (e : Edit) :
    (overwriteRow s r e).resourceID = r.resourceID := rfl

theorem dfAfterRow_cost (s : Schema) (r : Row) :
    (dfAfterRow s r).monthlyCostUSD = r.monthlyCostUSD := by
  unfold dfAfterRow
  split <;> rfl

theorem dfAfterRow_tagged_no (s : Schema) (r : Row) :
    (dfAfterRow s r).tagged = some "No" → r.tagged = some "No" := by
  unfold dfAfterRow
  split
  · intro h
    simp at h
  · exact fun h => h

theorem dfAfterRow_ratchet (s : Schema) (r : Row) :
    r.tagged = some "Yes" → (dfAfterRow s r).tagged = some "Yes" := by
  unfold dfAfterRow
  split
  · intro _
    rfl
  · exact fun h => h

theorem tagFieldValue_dfAfterRow (s : Schema) (c : String) (r : Row) :
    tagFieldValue c (dfAfterRow s r) = tagFieldValue c r := by
  unfold dfAfterRow
  split <;> rfl

theorem afterGuard_dfAfterRow (s : Schema) (r : Row) :
    afterGuard s (dfAfterRow s r) = afterGuard s r := by
  simp [afterGuard, completeness_mask, tagFieldValue_dfAfterRow]

theorem mergeRowsAux_map_tagged (s : Schema) (edits : List Edit) :
    ∀ (rows : List Row) (i : Nat),
      (mergeRowsAux s edits i rows).map Row.tagged = rows.map Row.tagged := by
  intro rows
  induction rows with
  | nil => intro i; rfl
  | cons r rs ih =>
    intro i
    rcases hfe : findEdit edits i with _ | e <;>
      simp [mergeRowsAux, hfe, overwriteRow_tagged, ih]

theorem mergeRowsAux_map_rid (s : Schema) (edits : List Edit) :
    ∀ (rows : List Row) (i : Nat),
      (mergeRowsAux s edits i rows).map Row.resourceID = rows.map Row.resourceID := by
  intro rows
  induction rows with
  | nil => intro i; rfl
  | cons r rs ih =>
    intro i
    rcases hfe : findEdit edits i with _ | e <;>
      simp [mergeRowsAux, hfe, overwriteRow_rid, ih]

/-- Pointwise relation between the original rows and the rows of `df_after`
built over any merged batch: costs are unchanged, `Tagged = "Yes"` is never
reverted, and a row untagged afterwards was untagged before. -/
theorem merge_after_pointwise (s : Schema) (edits : List Edit) :
    ∀ (rows : List Row) (i : Nat),
      List.Forall₂
        (fun r r2 => costD r2 = costD r ∧
          (r.tagged = some "Yes" → r2.tagged = some "Yes") ∧
          (r2.tagged = some "No" → r.tagged = some "No"))
        rows ((mergeRowsAux s edits i rows).map (dfAfterRow s)) := by
  intro rows
  induction rows with
  | nil => intro i; simp [mergeRowsAux]
  | cons r rs ih =>
    intro i
    have hhead : ∀ m : Row, m.tagged = r.tagged → m.monthlyCostUSD = r.monthlyCostUSD →
        costD (dfAfterRow s m) = costD r ∧
        (r.tagged = some "Yes" → (dfAfterRow s m).tagged = some "Yes") ∧
        ((dfAfterRow s m).tagged = some "No" → r.tagged = some "No") := by
      intro m htag hcost
      refine ⟨?_, ?_, ?_⟩
      · simp [costD, dfAfterRow_cost, hcost]
      · intro hy
        exact dfAfterRow_ratchet s m (htag.trans hy)
      · intro hn
        exact htag ▸ dfAfterRow_tagged_no s m hn
    rcases hfe : findEdit edits i with _ | e
    · simp only [mergeRowsAux, hfe, List.map]
      exact List.Forall₂.cons (hhead r rfl rfl) (ih (i + 1))
    · simp only [mergeRowsAux, hfe, List.map]
      exact List.Forall₂.cons
        (hhead (overwriteRow s r e) (overwriteRow_tagged s r e) (overwriteRow_cost s r e))
        (ih (i + 1))

/-- Comparison of the untagged metrics along the pointwise relation. -/
theorem pair_untagged_le (l1 l2 : List Row)
    (h : List.Forall₂
      (fun r r2 => costD r2 = costD r ∧
        (r.tagged = some "Yes" → r2.tagged = some "Yes") ∧
        (r2.tagged = some "No" → r.tagged = some "No")) l1 l2)
    (hnn : ∀ r ∈ l1, 0 ≤ costD r) :
    untagged_cost l2 ≤ untagged_cost l1 ∧ untagged_count l2 ≤ untagged_count l1 := by
  induction h with
  | nil => simp [untagged_cost, untagged_count]
  | cons ha hrest ih =>
    rename_i a b l1t l2t
    have hann : 0 ≤ costD a := hnn a (List.mem_cons_self a l1t)
    have iht := ih (fun x hx => hnn x (List.mem_cons_of_mem a hx))
    rw [untagged_cost_cons, untagged_cost_cons, untagged_count_cons, untagged_count_cons]
    rcases ha with ⟨hcost, _, hno⟩
    by_cases hb : isUntagged b = true
    · have hbn : b.tagged = some "No" := (isUntagged_iff b).1 hb
      have han : isUntagged a = true := (isUntagged_iff a).2 (hno hbn)
      simp only [hb, han, if_true]
      exact ⟨by rw [hcost]; exact add_le_add_left iht.1 _,
             add_le_add_left iht.2 _⟩
    · constructor
      · calc (if isUntagged b then costD b else 0) + untagged_cost l2t
            = untagged_cost l2t := by simp [hb]
          _ ≤ untagged_cost l1t := iht.1
          _ ≤ (if isUntagged a then costD a else 0) + untagged_cost l1t := by
              by_cases han : isUntagged a = true <;> simp [han]
              linarith
      · calc (if isUntagged b then 1 else 0) + untagged_count l2t
            = untagged_count l2t := by simp [hb]
          _ ≤ untagged_count l1t := iht.2
          _ ≤ (if isUntagged a then 1 else 0) + untagged_count l1t := by
              by_cases han : isUntagged a = true <;> simp [han]

theorem mergeEdits_ok (t : Table) (edits : List Edit) (rows2 : List Row)
    (hm : mergeEdits t edits = .ok rows2) :
    rows2 = mergeRowsAux t.schema edits 0 t.rows := by
  unfold mergeEdits at hm
  split at hm
  · exact (Except.ok.inj hm).symm
  · exact absurd hm (by simp)

theorem applyEditsAll_ok (t : Table) (edits : List Edit) (out : List Row)
    (hm : applyEditsAll t edits = .ok out) :
    out = df_after t.schema (mergeRowsAux t.schema edits 0 t.rows) := by
  unfold applyEditsAll at hm
  rcases he : mergeEdits t edits with m | rows2 <;> rw [he] at hm
  · exact absurd hm (by simp)
  · have h2 := Except.ok.inj hm
    rw [← h2, mergeEdits_ok t edits rows2 he]

theorem dfAfterRow_yes_of_guard (s : Schema) (r : Row)
    (h : afterGuard s r = true) : (dfAfterRow s r).tagged = some "Yes" := by
  unfold dfAfterRow
  rw [if_pos h]

/-! ### C1: the completeness ratchet -/

/-- C1 counterexample row: Department, Project, Environment and Owner all
non-null, CostCenter null, `Tagged = "No"`. -/
def r1cx : Row :=
  { resourceID := some "R1", monthlyCostUSD := none, tagged := some "No"
    service := none, region := none, department := some "Eng"
    project := some "X", environment := some "Prod", owner := some "alice"
    costCenter := none, createdBy := none }

/-- C1 counterexample table: the CostCenter column is present, so the code's
completeness mask (lines 539-541) also requires CostCenter to be non-null. -/
def t1cx : Table :=
  { schema :=
      { hasResourceID := true, hasCost := false, hasTagged := true
        hasService := false, hasRegion := false, hasDepartment := true
        hasProject := true, hasEnvironment := true, hasOwner := true
        hasCostCenter := true, hasCreatedBy := false }
    rows := [r1cx] }

/-- C1: the claim fails on the code: after `applyEdits` (here with an empty
batch) the concrete row has Department, Project, Environment and Owner all
non-null but keeps `Tagged = "No"`, because the completeness mask of lines
539-541 tests ALL tag fields present in the table (here also the null
CostCenter), not just those four. -/
theorem c1_counterexample :
    applyEditsAll t1cx [] = .ok [r1cx] ∧
    r1cx.department.isSome = true ∧ r1cx.project.isSome = true ∧
    r1cx.environment.isSome = true ∧ r1cx.owner.isSome = true ∧
    ¬r1cx.tagged = some "Yes" :=
  ⟨rfl, rfl, rfl, rfl, rfl, by decide⟩

/-- C1 (amended): after `applyEdits` (the RowID-keyed merge of lines 494-501
followed by the recomputation of lines 536-542), every row for which ALL tag
fields present among {Department, Project, Environment, Owner, CostCenter,
CreatedBy} are non-null (and at least one such column exists) has
`Tagged = "Yes"`; and the reclassification is a one-way ratchet: no row with
`Tagged = "Yes"` is ever changed away from it. -/
theorem c1_amended (t : Table) (edits : List Edit) (out : List Row)
    (hm : applyEditsAll t edits = .ok out) :
    (∀ r2 ∈ out, afterGuard t.schema r2 = true → r2.tagged = some "Yes") ∧
    List.Forall₂ (fun r r2 => r.tagged = some "Yes" → r2.tagged = some "Yes")
      t.rows out := by
  rw [applyEditsAll_ok t edits out hm]
  constructor
  · intro r2 h2 hg
    rcases List.mem_map.1 h2 with ⟨m, _, rfl⟩
    rw [afterGuard_dfAfterRow] at hg
    exact dfAfterRow_yes_of_guard t.schema m hg
  · exact (merge_after_pointwise t.schema edits t.rows 0).imp
      (fun _ _ h => h.2.1)

/-- Concrete table for the C1 witness: only the four spec tag-field columns
are present and the single untagged row is complete. -/
def tw1 : Table :=
  { schema :=
      { hasResourceID := true, hasCost := false, hasTagged := true
        hasService := false, hasRegion := false, hasDepartment := true
        hasProject := true, hasEnvironment := true, hasOwner := true
        hasCostCenter := false, hasCreatedBy := false }
    rows :=
      [{ resourceID := some "R1", monthlyCostUSD := none, tagged := some "No"
         service := none, region := none, department := some "Eng"
         project := some "X", environment := some "Prod", owner := some "alice"
         costCenter := none, createdBy := none }] }

/-- The rows of `df_after` for `tw1` with an empty batch: the complete row is
promoted to `Tagged = "Yes"`. -/
def tw1out : List Row :=
  [{ resourceID := some "R1", monthlyCostUSD := none, tagged := some "Yes"
     service := none, region := none, department := some "Eng"
     project := some "X", environment := some "Prod", owner := some "alice"
     costCenter := none, createdBy := none }]

/-- C1 witness: the amended theorem evaluated on `tw1` with an empty batch. -/
theorem c1_amended_witness :
    (∀ r2 ∈ tw1out, afterGuard tw1.schema r2 = true → r2.tagged = some "Yes") ∧
    List.Forall₂ (fun r r2 => r.tagged = some "Yes" → r2.tagged = some "Yes")
      tw1.rows tw1out :=
  c1_amended tw1 [] tw1out rfl

/-! ### C7: fills-only remediation never increases the untagged metrics -/

/-- An edited cell only fills: it is unchanged, or it replaces a null with a
non-null value. -/
def fillsField (ev rv : Option String) : Bool :=
  ev == rv || (rv.isNone && ev.isSome)

/-- The edit row only fills the tag fields of the row it addresses. -/
def fillsOnlyEdit (t : Table) (e : Edit) : Bool :=
  match e.rowID with
  | some i =>
    match t.rows.get? i with
    | some r =>
      fillsField e.department r.department && fillsField e.project r.project &&
      fillsField e.environment r.environment && fillsField e.owner r.owner &&
      fillsField e.costCenter r.costCenter && fillsField e.createdBy r.createdBy
    | none => false
  | none => false

/-- The whole batch only fills fields (never blanks a non-null value). -/
def fillsOnly (t : Table) (edits : List Edit) : Bool :=
  edits.all (fillsOnlyEdit t)

/-- C7: before/after comparison of lines 522-553: for every table with
non-negative costs and every merged edit batch that only fills fields, the
after-remediation untagged cost and untagged count never exceed the
before-remediation ones. -/
theorem c7_fills_only_monotone (t : Table) (edits : List Edit) (rows2 : List Row)
    (hm : mergeEdits t edits = .ok rows2)
    (_hfill : fillsOnly t edits = true)
    (hnn : ∀ r ∈ t.rows, 0 ≤ costD r) :
    untagged_cost (df_after t.schema rows2) ≤ untagged_cost t.rows ∧
    untagged_count (df_after t.schema rows2) ≤ untagged_count t.rows := by
  rw [mergeEdits_ok t edits rows2 hm]
  exact pair_untagged_le t.rows _
    (merge_after_pointwise t.schema edits t.rows 0) hnn

/-- Concrete table for the C7 witness: one untagged row missing only Owner. -/
def tw7 : Table :=
  { schema :=
      { hasResourceID := true, hasCost := true, hasTagged := true
        hasService := false, hasRegion := false, hasDepartment := true
        hasProject := true, hasEnvironment := true, hasOwner := true
        hasCostCenter := false, hasCreatedBy := false }
    rows :=
      [{ resourceID := some "R1", monthlyCostUSD := some 100, tagged := some "No"
         service := none, region := none, department := some "Eng"
         project := some "X", environment := some "Prod", owner := none
         costCenter := none, createdBy := none }] }

/-- The C7 witness batch: fill the null Owner of row 0. -/
def ew7 : Edit :=
  { rowID := some 0, resourceID := some "R1", monthlyCostUSD := some 100
    department := some "Eng", project := some "X", environment := some "Prod"
    owner := some "alice", costCenter := none, createdBy := none }

/-- The merged rows for the C7 witness. -/
def tw7out : List Row :=
  [{ resourceID := some "R1", monthlyCostUSD := some 100, tagged := some "No"
     service := none, region := none, department := some "Eng"
     project := some "X", environment := some "Prod", owner := some "alice"
     costCenter := none, createdBy := none }]

/-- C7 witness: the theorem evaluated on `tw7` with the Owner-filling batch. -/
theorem c7_fills_only_monotone_witness :
    untagged_cost (df_after tw7.schema tw7out) ≤ untagged_cost tw7.rows ∧
    untagged_count (df_after tw7.schema tw7out) ≤ untagged_count tw7.rows :=
  c7_fills_only_monotone tw7 [ew7] tw7out rfl (by decide) (by decide)

/-! ### C10: the exported remediated dataset -/

/-- C10: the exported remediated dataset (lines 503-509) never contains the
internal `RowID` column, and its `Tagged` column is identical to the original
table's: the completeness promotion of lines 536-542 happens only on the
separate `df_after` copy used for the after metrics, never on the exported
`df_remediated`. -/
theorem c10_export_frame (t : Table) (edits : List Edit) (rows2 : List Row)
    (hm : mergeEdits t edits = .ok rows2) :
    "RowID" ∉ exportColumns t.schema ∧
    rows2.map Row.tagged = t.rows.map Row.tagged := by
  constructor
  · intro h
    rcases List.mem_filter.1 h with ⟨_, h2⟩
    simp at h2
  · rw [mergeEdits_ok t edits rows2 hm]
    exact mergeRowsAux_map_tagged t.schema edits t.rows 0

/-- Concrete table for the C10 witness. -/
def tw10 : Table :=
  { schema :=
      { hasResourceID := true, hasCost := true, hasTagged := true
        hasService := false, hasRegion := false, hasDepartment := true
        hasProject := false, hasEnvironment := false, hasOwner := false
        hasCostCenter := false, hasCreatedBy := false }
    rows :=
      [{ resourceID := some "R1", monthlyCostUSD := some 10, tagged := some "No"
         service := none, region := none, department := none
         project := none, environment := none, owner := none
         costCenter := none, createdBy := none }] }

/-- C10 witness: the theorem evaluated on `tw10` with an empty batch. -/
theorem c10_export_frame_witness :
    "RowID" ∉ exportColumns tw10.schema ∧
    tw10.rows.map Row.tagged = tw10.rows.map Row.tagged :=
  c10_export_frame tw10 [] tw10.rows rfl

/-! ### C6: idempotence of the merge on an identity batch -/

/-- The edit row carries exactly the current tag-field values of the row it
addresses. -/
def isIdentityEdit (t : Table) (e : Edit) : Bool :=
  match e.rowID with
  | some i =>
    match t.rows.get? i with
    | some r =>
      e.department == r.department && e.project == r.project &&
      e.environment == r.environment && e.owner == r.owner &&
      e.costCenter == r.costCenter && e.createdBy == r.createdBy
    | none => false
  | none => false

/-- The batch's supplied field values all equal the addressed rows' current
values. -/
def identityBatch (t : Table) (edits : List Edit) : Bool :=
  edits.all (isIdentityEdit t)

theorem overwriteRow_identity (s : Schema) (r : Row) (e : Edit)
    (h1 : e.department = r.department) (h2 : e.project = r.project)
    (h3 : e.environment = r.environment) (h4 : e.owner = r.owner)
    (h5 : e.costCenter = r.costCenter) (h6 : e.createdBy = r.createdBy) :
    overwriteRow s r e = r := by
  cases r
  simp [overwriteRow, h1, h2, h3, h4, h5, h6]

theorem mergeRowsAux_identity (s : Schema) (edits : List Edit) :
    ∀ (l : List Row) (i : Nat),
      (∀ (j : Nat) (hj : j < l.length) (e : Edit), findEdit edits (i + j) = some e →
        overwriteRow s (l.get ⟨j, hj⟩) e = l.get ⟨j, hj⟩) →
      mergeRowsAux s edits i l = l := by
  intro l
  induction l with
  | nil => intro i _; rfl
  | cons r rs ih =>
    intro i h
    have hhead :
        (match findEdit edits i with
         | some e => overwriteRow s r e
         | none => r) = r := by
      rcases hfe : findEdit edits i with _ | e
      · rfl
      · have := h 0 (by simp) e (by simpa using hfe)
        simpa using this
    have htail : mergeRowsAux s edits (i + 1) rs = rs := by
      apply ih (i + 1)
      intro j hj e hfe
      have hj2 : j + 1 < (r :: rs).length := by
        simpa using Nat.succ_lt_succ hj
      have harg : i + (j + 1) = i + 1 + j := by omega
      have := h (j + 1) hj2 e (by rw [harg]; exact hfe)
      simpa using this
    simp [mergeRowsAux, hhead, htail]

theorem identity_overwrite (t : Table) (edits : List Edit)
    (hid : identityBatch t edits = true) :
    ∀ (j : Nat) (hj : j < t.rows.length) (e : Edit), findEdit edits j = some e →
      overwriteRow t.schema (t.rows.get ⟨j, hj⟩) e = t.rows.get ⟨j, hj⟩ := by
  intro j hj e hfe
  have hmem : e ∈ edits := List.mem_of_find?_eq_some hfe
  have hrow : e.rowID = some j := by
    simpa using List.find?_some hfe
  unfold identityBatch at hid
  have hide : isIdentityEdit t e = true := List.all_eq_true.1 hid e hmem
  have hget : t.rows.get? j = some (t.rows.get ⟨j, hj⟩) := List.get?_eq_get hj
  unfold isIdentityEdit at hide
  simp only [hrow, hget, Bool.and_eq_true, beq_iff_eq] at hide
  obtain ⟨⟨⟨⟨⟨h1, h2⟩, h3⟩, h4⟩, h5⟩, h6⟩ := hide
  exact overwriteRow_identity t.schema _ e h1 h2 h3 h4 h5 h6

theorem identity_valid (t : Table) (edits : List Edit)
    (hid : identityBatch t edits = true) :
    edits.all (validEdit t.rows.length) = true := by
  unfold identityBatch at hid
  rw [List.all_eq_true] at hid ⊢
  intro e hmem
  have hide := hid e hmem
  unfold isIdentityEdit at hide
  unfold validEdit
  cases he : e.rowID with
  | none =>
    simp only [he] at hide
    exact absurd hide Bool.false_ne_true
  | some i =>
    cases hg : t.rows.get? i with
    | none =>
      simp only [he, hg] at hide
      exact absurd hide Bool.false_ne_true
    | some r =>
      have hlt : i < t.rows.length := by
        by_contra hge
        rw [List.get?_eq_none.2 (Nat.le_of_not_lt hge)] at hg
        exact Option.noConfusion hg
      simp [hlt]

theorem map_eq_self_rows (f : Row → Row) (l : List Row) :
    l.map f = l ↔ ∀ x ∈ l, f x = x := by
  induction l with
  | nil => simp
  | cons a l ih => simp [ih]

theorem set_tagged_eq_self (r : Row) (v : Option String) :
    ({ r with tagged := v } : Row) = r ↔ v = r.tagged := by
  cases r
  simp [Row.mk.injEq]

theorem dfAfterRow_eq_self_iff (s : Schema) (r : Row) :
    dfAfterRow s r = r ↔ (afterGuard s r = true → r.tagged = some "Yes") := by
  by_cases h : afterGuard s r = true
  · rw [show dfAfterRow s r = { r with tagged := some "Yes" } from by
      unfold dfAfterRow; rw [if_pos h]]
    rw [set_tagged_eq_self]
    simp [h, eq_comm]
  · rw [show dfAfterRow s r = r from by unfold dfAfterRow; rw [if_neg h]]
    simp [h]

/-- C6 counterexample row: untagged but with every present tag field already
non-null. -/
def r6cx : Row :=
  { resourceID := some "R1", monthlyCostUSD := none, tagged := some "No"
    service := none, region := none, department := some "Eng"
    project := some "X", environment := some "Prod", owner := some "alice"
    costCenter := none, createdBy := none }

/-- C6 counterexample table. -/
def t6cx : Table :=
  { schema :=
      { hasResourceID := true, hasCost := false, hasTagged := true
        hasService := false, hasRegion := false, hasDepartment := true
        hasProject := true, hasEnvironment := true, hasOwner := true
        hasCostCenter := false, hasCreatedBy := false }
    rows := [r6cx] }

/-- The identity edit for row 0 of `t6cx`: every supplied field equals the
current value. -/
def e6cx : Edit :=
  { rowID := some 0, resourceID := some "R1", monthlyCostUSD := none
    department := some "Eng", project := some "X", environment := some "Prod"
    owner := some "alice", costCenter := none, createdBy := none }

/-- The output rows of the full recomputation on `t6cx` with the identity
batch: `Tagged` is flipped to `"Yes"`. -/
def t6out : List Row :=
  [{ resourceID := some "R1", monthlyCostUSD := none, tagged := some "Yes"
     service := none, region := none, department := some "Eng"
     project := some "X", environment := some "Prod", owner := some "alice"
     costCenter := none, createdBy := none }]

/-- C6: the claim fails on the code: with an edit batch equal to the current
field values, `applyEdits` (merge plus the `Tagged` recomputation of lines
536-542) does NOT return a table identical to the input: the untagged row
whose tag fields were already complete has its `Tagged` flipped to `"Yes"`. -/
theorem c6_counterexample :
    identityBatch t6cx [e6cx] = true ∧
    applyEditsAll t6cx [e6cx] = .ok t6out ∧
    t6out ≠ t6cx.rows :=
  ⟨by decide, rfl, by decide⟩

/-- C6 (amended): with an identity edit batch (over distinct row labels), the
merge of lines 494-501 returns the table unchanged, so the exported
`df_remediated` is identical to the input; the `df_after` copy of lines
536-542 is additionally identical to the input if and only if every row
satisfying the completeness mask already has `Tagged = "Yes"` — otherwise
exactly those rows get a (non-spurious) ratchet flip to `"Yes"`. -/
theorem c6_amended (t : Table) (edits : List Edit)
    (hid : identityBatch t edits = true)
    (hnd : (edits.map Edit.rowID).Nodup) :
    mergeEdits t edits = .ok t.rows ∧
    (df_after t.schema t.rows = t.rows ↔
      ∀ r ∈ t.rows, afterGuard t.schema r = true → r.tagged = some "Yes") := by
  constructor
  · unfold mergeEdits
    rw [if_pos]
    · congr 1
      exact mergeRowsAux_identity t.schema edits t.rows 0 (by
        intro j hj e hfe
        exact identity_overwrite t edits hid j hj e (by simpa using hfe))
    · unfold validEdits
      rw [Bool.and_eq_true]
      exact ⟨identity_valid t edits hid, decide_eq_true hnd⟩
  · have hmap : df_after t.schema t.rows = t.rows ↔
        ∀ r ∈ t.rows, dfAfterRow t.schema r = r := by
      unfold df_after
      exact map_eq_self_rows (dfAfterRow t.schema) t.rows
    rw [hmap]
    constructor
    · intro h r hr
      exact (dfAfterRow_eq_self_iff t.schema r).1 (h r hr)
    · intro h r hr
      exact (dfAfterRow_eq_self_iff t.schema r).2 (h r hr)

/-- Concrete table for the C6 witness: the single untagged row is incomplete
(null Owner), so here the identity batch changes nothing at all. -/
def tw6 : Table :=
  { schema :=
      { hasResourceID := true, hasCost := false, hasTagged := true
        hasService := false, hasRegion := false, hasDepartment := true
        hasProject := true, hasEnvironment := true, hasOwner := true
        hasCostCenter := false, hasCreatedBy := false }
    rows :=
      [{ resourceID := some "R1", monthlyCostUSD := none, tagged := some "No"
         service := none, region := none, department := some "Eng"
         project := some "X", environment := some "Prod", owner := none
         costCenter := none, createdBy := none }] }

/-- The identity edit for row 0 of `tw6`. -/
def ew6 : Edit :=
  { rowID := some 0, resourceID := some "R1", monthlyCostUSD := none
    department := some "Eng", project := some "X", environment := some "Prod"
    owner := none, costCenter := none, createdBy := none }

/-- C6 witness: the amended theorem evaluated on `tw6` with its identity
batch. -/
theorem c6_amended_witness :
    mergeEdits tw6 [ew6] = .ok tw6.rows ∧
    (df_after tw6.schema tw6.rows = tw6.rows ↔
      ∀ r ∈ tw6.rows, afterGuard tw6.schema r = true → r.tagged = some "Yes") :=
  c6_amended tw6 [ew6] (by decide) (by decide)

/-! ### The rendering control flow (src/app.py top-level script)

The script renders five task-set sections in order inside one big
`try/except`.  We model only the control flow: which section headers are
reached, which `st.error` boxes are emitted, and where an uncaught pandas
exception aborts the remainder of the script (the outer handler of lines
598-601 then shows a generic error).  All `st.dataframe` / chart / widget
calls are pure rendering and are out of scope.

The two abort points reachable by a mere missing optional column are:
* line 94: `df.groupby("Tagged", ...)` raises KeyError when the `Tagged`
  column is absent but `MonthlyCostUSD` is present (Task 2.1 is guarded only
  by the cost column);
* line 192: `df_env.groupby([...])["ResourceID"].count()` raises KeyError
  when `ResourceID` is absent, the `Environment` column is present and some
  row has Environment Prod or Dev (Task 2.5);
and in Task Set 5 the `.loc` write-back of lines 494-501 raises on a bad
`RowID` label. -/

/-- An observable step of the script run. -/
inductive Event where
  | secHeader (name : String)
  | errorBox (msg : String)
  | fatal (msg : String)
deriving DecidableEq, Repr

def ts1Name : String := "Task Set 1 - Data Exploration"

def ts2Name : String := "Task Set 2 - Cost Visibility"

def ts3Name : String := "Task Set 3 - Tagging Compliance"

def ts4Name : String := "Task Set 4 - Visualization Dashboard"

def ts5Name : String := "Task Set 5 - Tag Remediation Workflow"

def fileNotFoundMsg : String := "Error: File not found."

def genericErrMsg : String := "An error occurred"

def costMissingMsg : String :=
  "The dataset does not contain a MonthlyCostUSD column, so cost visibility tasks cannot be calculated."

def noTagFieldsMsg : String := "No tag fields found in the dataset for compliance analysis."

def taggedMissingRemMsg : String :=
  "Column Tagged not found in the dataset; cannot perform remediation workflow."

def ridMissingMsg : String :=
  "Column ResourceID not found in the dataset; cannot safely merge edits back."

/-- Some row has Environment `"Prod"` or `"Dev"` (line 169 mask non-empty). -/
def prodDevPresent (t : Table) : Bool :=
  t.rows.any (fun r => r.environment == some "Prod" || r.environment == some "Dev")

/-- Task Set 1 (lines 36-79): every display is guarded by a column check;
it never errors and never aborts. -/
def ts1Events : List Event := [.secHeader ts1Name]

/-- Task Set 2 (lines 84-200): events and whether an exception aborted the
script there. -/
def ts2Run (t : Table) : List Event × Bool :=
  if !t.schema.hasCost then ([.secHeader ts2Name, .errorBox costMissingMsg], false)
  else if !t.schema.hasTagged then ([.secHeader ts2Name, .fatal genericErrMsg], true)
  else if t.schema.hasEnvironment && prodDevPresent t && !t.schema.hasResourceID then
    ([.secHeader ts2Name, .fatal genericErrMsg], true)
  else ([.secHeader ts2Name], false)

/-- Task Set 3 (lines 205-286): shows an error box when no tag field column
exists, otherwise proceeds; never aborts. -/
def ts3Events (t : Table) : List Event :=
  .secHeader ts3Name ::
    (if (current_tag_fields t.schema).isEmpty then [.errorBox noTagFieldsMsg] else [])

/-- Task Set 4 (lines 291-430): every chart is guarded by column-presence
checks; never errors fatally. -/
def ts4Events : List Event := [.secHeader ts4Name]

/-- Task Set 5 (lines 435-596): the Tagged / ResourceID guards of lines
437-444, then the editable grid and the RowID-keyed merge, which raises on a
batch with a bad or duplicated RowID label. -/
def ts5Run (t : Table) (edits : List Edit) : List Event × Bool :=
  if !t.schema.hasTagged then ([.secHeader ts5Name, .errorBox taggedMissingRemMsg], false)
  else if !t.schema.hasResourceID then ([.secHeader ts5Name, .errorBox ridMissingMsg], false)
  else if (untagged_original t).isEmpty then ([.secHeader ts5Name], false)
  else if validEdits t.rows.length edits then ([.secHeader ts5Name], false)
  else ([.secHeader ts5Name, .fatal genericErrMsg], true)

/-- The whole script run: `none` models a missing/unreadable source file
(lines 598-599); otherwise the five sections run in order, stopping at the
first uncaught exception. -/
def runApp (src : Option Table) (edits : List Edit) : List Event :=
  match src with
  | none => [.errorBox fileNotFoundMsg]
  | some t =>
    if (ts2Run t).2 then ts1Events ++ (ts2Run t).1
    else ts1Events ++ (ts2Run t).1 ++ ts3Events t ++ ts4Events ++ (ts5Run t edits).1

/-! ### C4: missing ResourceID versus missing optional columns -/

/-- C4 counterexample table: no ResourceID column (and no cost column), but
Tagged and Department present. -/
def t4cx : Table :=
  { schema :=
      { hasResourceID := false, hasCost := false, hasTagged := true
        hasService := false, hasRegion := false, hasDepartment := true
        hasProject := false, hasEnvironment := false, hasOwner := false
        hasCostCenter := false, hasCreatedBy := false }
    rows :=
      [{ resourceID := none, monthlyCostUSD := none, tagged := some "No"
         service := none, region := none, department := some "Sales"
         project := none, environment := none, owner := none
         costCenter := none, createdBy := none }] }

/-- C4: the claim fails on the code: with the required `ResourceID` column
absent, the run still renders the Task Set 1 dashboard section (and more) —
a partial dashboard IS rendered; only the remediation section shows the
blocking error box. -/
theorem c4_counterexample :
    t4cx.schema.hasResourceID = false ∧
    Event.secHeader ts1Name ∈ runApp (some t4cx) [] ∧
    Event.errorBox ridMissingMsg ∈ runApp (some t4cx) [] :=
  ⟨rfl, by decide, by decide⟩

/-- C4 (amended): only a missing/unreadable source file is a blocking load
error rendering nothing.  Absence of `ResourceID` is local: provided Tagged
is present and the Task 2.5 trap (cost, Environment and a Prod/Dev row all
present) is not hit, all five sections still render, the remediation section
is replaced by its error box, and no uncaught exception occurs.  Absence of
the optional `Tagged` column while `MonthlyCostUSD` is present, however,
aborts the script at Task 2.1 with a generic error. -/
theorem c4_amended (t : Table) (edits : List Edit) :
    runApp none edits = [Event.errorBox fileNotFoundMsg] ∧
    (t.schema.hasResourceID = false → t.schema.hasTagged = true →
      (t.schema.hasCost && t.schema.hasEnvironment && prodDevPresent t) = false →
      Event.secHeader ts1Name ∈ runApp (some t) edits ∧
      Event.secHeader ts2Name ∈ runApp (some t) edits ∧
      Event.secHeader ts3Name ∈ runApp (some t) edits ∧
      Event.secHeader ts4Name ∈ runApp (some t) edits ∧
      Event.secHeader ts5Name ∈ runApp (some t) edits ∧
      Event.errorBox ridMissingMsg ∈ runApp (some t) edits ∧
      ∀ m, Event.fatal m ∉ runApp (some t) edits) ∧
    (t.schema.hasCost = true → t.schema.hasTagged = false →
      runApp (some t) edits =
        ts1Events ++ [Event.secHeader ts2Name, Event.fatal genericErrMsg]) := by
  refine ⟨rfl, ?_, ?_⟩
  · intro hrid htag htrap
    have hts2 : ts2Run t = ([.secHeader ts2Name, .errorBox costMissingMsg], false) ∨
        ts2Run t = ([.secHeader ts2Name], false) := by
      unfold ts2Run
      cases hc : t.schema.hasCost
      · left; simp
      · right
        rw [hc] at htrap
        simp only [Bool.true_and] at htrap
        simp [htag, htrap, hrid]
    have hts5 : ts5Run t edits = ([.secHeader ts5Name, .errorBox ridMissingMsg], false) := by
      unfold ts5Run
      simp [htag, hrid]
    obtain ⟨l2, hl2, hfat2, hsec2⟩ :
        ∃ l2, ts2Run t = (l2, false) ∧ (∀ m, Event.fatal m ∉ l2) ∧
          Event.secHeader ts2Name ∈ l2 := by
      rcases hts2 with h | h
      · exact ⟨_, h, fun m => by simp, by simp⟩
      · exact ⟨_, h, fun m => by simp, by simp⟩
    have hrun : runApp (some t) edits =
        ts1Events ++ l2 ++ ts3Events t ++ ts4Events ++ (ts5Run t edits).1 := by
      simp only [runApp, hl2]
      rfl
    rw [hrun, hts5]
    refine ⟨by simp [ts1Events], by simp [hsec2], by simp [ts3Events],
      by simp [ts4Events], by simp, by simp, ?_⟩
    intro m
    simp only [List.mem_append, not_or]
    refine ⟨⟨⟨⟨by simp [ts1Events], hfat2 m⟩, ?_⟩, by simp [ts4Events]⟩, by simp⟩
    unfold ts3Events
    cases (current_tag_fields t.schema).isEmpty <;> simp
  · intro hc htag
    have h2 : ts2Run t = ([.secHeader ts2Name, .fatal genericErrMsg], true) := by
      unfold ts2Run
      simp [hc, htag]
    simp only [runApp, h2]
    rfl

/-- Concrete table for the C4 witness (Tagged present, ResourceID and cost
absent). -/
def tw4 : Table :=
  { schema :=
      { hasResourceID := false, hasCost := false, hasTagged := true
        hasService := false, hasRegion := false, hasDepartment := true
        hasProject := false, hasEnvironment := false, hasOwner := false
        hasCostCenter := false, hasCreatedBy := false }
    rows := [] }

/-- C4 witness: the amended theorem evaluated on `tw4`. -/
theorem c4_amended_witness :
    Event.secHeader ts1Name ∈ runApp (some tw4) [] ∧
    Event.secHeader ts5Name ∈ runApp (some tw4) [] ∧
    Event.errorBox ridMissingMsg ∈ runApp (some tw4) [] ∧
    ∀ m, Event.fatal m ∉ runApp (some tw4) [] := by
  have h := (c4_amended tw4 []).2.1 rfl rfl (by decide)
  exact ⟨h.1, h.2.2.2.2.1, h.2.2.2.2.2.1, h.2.2.2.2.2.2⟩

/-! ### C5: edits addressing unknown targets -/

/-- C5 counterexample table: one untagged row, so the editable grid and the
merge are reached. -/
def t5cx : Table :=
  { schema :=
      { hasResourceID := true, hasCost := false, hasTagged := true
        hasService := false, hasRegion := false, hasDepartment := true
        hasProject := false, hasEnvironment := false, hasOwner := false
        hasCostCenter := false, hasCreatedBy := false }
    rows :=
      [{ resourceID := some "R1", monthlyCostUSD := none, tagged := some "No"
         service := none, region := none, department := none
         project := none, environment := none, owner := none
         costCenter := none, createdBy := none }] }

/-- The spec's example edit: a grid row referencing the non-existent
ResourceID `"R999"`; as a row newly added in the dynamic editor it carries a
null RowID label. -/
def e5cx : Edit :=
  { rowID := none, resourceID := some "R999", monthlyCostUSD := none
    department := some "X", project := none, environment := none
    owner := none, costCenter := none, createdBy := none }

/-- C5: the claim fails on the code: the batch containing the `"R999"` edit
is not dropped-and-continued — the RowID-keyed `.loc` write-back of lines
494-501 raises, so the whole merge fails and the script aborts with the
generic fatal error of the outer handler. -/
theorem c5_counterexample :
    mergeEdits t5cx [e5cx] = .error keyErrorMsg ∧
    Event.fatal genericErrMsg ∈ runApp (some t5cx) [e5cx] :=
  ⟨rfl, by decide⟩

/-- C5 (amended): edits are matched to rows by the internal `RowID` label,
not by `ResourceID` (supplied `ResourceID` values are never written back).
A batch in which some edit's RowID is not an existing row label (or labels
are duplicated) makes the whole `.loc` merge raise: none of the edits is
applied, the remediation section aborts with the generic error, and the
exported dataset is not produced. -/
theorem c5_amended (t : Table) (edits : List Edit) :
    (validEdits t.rows.length edits = false → mergeEdits t edits = .error keyErrorMsg) ∧
    (∀ rows2, mergeEdits t edits = .ok rows2 →
      rows2.map Row.resourceID = t.rows.map Row.resourceID) ∧
    (t.schema.hasTagged = true → t.schema.hasResourceID = true →
      (untagged_original t).isEmpty = false →
      validEdits t.rows.length edits = false →
      Event.fatal genericErrMsg ∈ runApp (some t) edits) := by
  refine ⟨?_, ?_, ?_⟩
  · intro h
    unfold mergeEdits
    rw [h]
    rfl
  · intro rows2 hm
    rw [mergeEdits_ok t edits rows2 hm]
    exact mergeRowsAux_map_rid t.schema edits t.rows 0
  · intro htag hrid hne hval
    have hts5 : ts5Run t edits = ([.secHeader ts5Name, .fatal genericErrMsg], true) := by
      unfold ts5Run
      simp [htag, hrid, hne, hval]
    have hts2 : (ts2Run t).2 = false := by
      unfold ts2Run
      cases hc : t.schema.hasCost <;> simp [htag, hrid]
    have hrun : runApp (some t) edits =
        ts1Events ++ (ts2Run t).1 ++ ts3Events t ++ ts4Events ++ (ts5Run t edits).1 := by
      simp only [runApp, hts2]
      simp
    rw [hrun, hts5]
    simp

/-- Concrete table for the C5 witness. -/
def tw5 : Table :=
  { schema :=
      { hasResourceID := true, hasCost := false, hasTagged := true
        hasService := false, hasRegion := false, hasDepartment := true
        hasProject := false, hasEnvironment := false, hasOwner := false
        hasCostCenter := false, hasCreatedBy := false }
    rows :=
      [{ resourceID := some "R1", monthlyCostUSD := none, tagged := some "No"
         service := none, region := none, department := none
         project := none, environment := none, owner := none
         costCenter := none, createdBy := none }] }

/-- The C5 witness batch: one edit with a null RowID label. -/
def ew5 : Edit :=
  { rowID := none, resourceID := some "R999", monthlyCostUSD := none
    department := some "X", project := none, environment := none
    owner := none, costCenter := none, createdBy := none }

/-- C5 witness: the amended theorem evaluated on `tw5` with the bad batch. -/
theorem c5_amended_witness :
    mergeEdits tw5 [ew5] = .error keyErrorMsg ∧
    Event.fatal genericErrMsg ∈ runApp (some tw5) [ew5] := by
  have h := c5_amended tw5 [ew5]
  exact ⟨h.1 (by decide), h.2.2 rfl rfl (by decide) (by decide)⟩

end CloudTagging
